/-
  Verification of the travel-planner demand-to-match pipeline.

  Shallow embedding of the core of the repository:
    - backend/app/services/booking_service.py  (synthetic candidate provider)
    - backend/app/services/chatgpt_service.py  (parameter extraction and relevance
      ranking with rule-based fallbacks)
    - backend/app/api/v1/recommendations.py    (orchestrator)
    - backend/app/crud/hotel.py                (persisted hotel store)

  Numbers that are Python floats in the source are modelled as `Rat` (every
  numeric literal in the source is a small decimal, represented exactly by
  both binary floats and rationals, so order and equality agree).
  Python dicts keyed by strings are modelled as functions `String → Option _`.
-/
import Mathlib

namespace TravelPlanner

/-! ### Python string primitives -/

/-- Python `str.lower()` (the repository only lowercases ASCII text). -/
def strLower (s : String) : String := String.mk (s.data.map Char.toLower)

/-- Substring test on character lists: `needle` occurs somewhere in `hay`. -/
def charsContains (needle hay : List Char) : Bool :=
  (List.range (hay.length + 1)).any fun i => needle.isPrefixOf (hay.drop i)

/-- Python `needle in hay` on strings. -/
def pyContains (needle hay : String) : Bool := charsContains needle.data hay.data

/-- Python `str.title()` restricted to what the gazetteer needs: uppercase a
letter whenever the preceding character is not a letter. -/
def titleChars : List Char → Bool → List Char
  | [], _ => []
  | c :: cs, startWord =>
    (if startWord && c.isAlpha then c.toUpper else c) :: titleChars cs (!c.isAlpha)

/-- Python `str.title()`. -/
def pyTitle (s : String) : String := String.mk (titleChars s.data true)

/-- Truthiness of a Python `Optional[float]`: `None` and `0.0` are falsy. -/
def ratTruthy : Option Rat → Bool
  | none => false
  | some q => decide (q ≠ 0)

/-! ### Data model -/

/-- A hotel candidate: one entry of the list produced by
`BookingService.search_hotels` (a JSON-like dict in the source).  `none` on an
optional field models an absent key. -/
structure Hotel where
  hotel_id : String
  name : String := ""
  address : String := ""
  city : String := ""
  country : String := ""
  latitude : Rat := 0
  longitude : Rat := 0
  price : Option Rat := none
  currency : String := "EUR"
  rating : Option Rat := none
  review_score : Option Rat := none
  review_count : Nat := 0
  amenities : List String := []
  description : String := ""
  images : List String := []
  url : String := ""
  deriving DecidableEq

/-- `SearchParameters` (backend/app/schemas/recommendation.py) as the
orchestrator builds it: occupancy fields already defaulted, preferences
always a list. -/
structure SearchParams where
  location : Option String := none
  check_in : Option String := none
  check_out : Option String := none
  budget_min : Option Rat := none
  budget_max : Option Rat := none
  adults : Nat := 1
  children : Nat := 0
  rooms : Nat := 1
  preferences : List String := []
  deriving DecidableEq

/-- `ChatGPTParameterExtractionResponse`: the raw extraction result, where
`preferences` may still be `None`. -/
structure ExtractedParams where
  location : Option String := none
  check_in : Option String := none
  check_out : Option String := none
  budget_min : Option Rat := none
  budget_max : Option Rat := none
  adults : Nat := 1
  children : Nat := 0
  rooms : Nat := 1
  preferences : Option (List String) := none
  deriving DecidableEq

/-! ### BookingService: location tables -/

/-- The city/coordinate table of `_get_location_coordinates`, in source order. -/
def locationCoordMap : List (String × Rat × Rat) :=
  [("paris", (48.8566, 2.3522)),
   ("rome", (41.9028, 12.4964)),
   ("london", (51.5074, -0.1278)),
   ("barcelona", (41.3851, 2.1734)),
   ("amsterdam", (52.3676, 4.9041)),
   ("berlin", (52.5200, 13.4050)),
   ("vienna", (48.2082, 16.3738)),
   ("prague", (50.0755, 14.4378)),
   ("madrid", (40.4168, -3.7038)),
   ("milan", (45.4642, 9.1900)),
   ("venice", (45.4408, 12.3155)),
   ("florence", (43.7696, 11.2558)),
   ("italy", (41.8719, 12.5674)),
   ("france", (46.2276, 2.2137)),
   ("spain", (40.4637, -3.7492))]

/-- `BookingService._get_location_coordinates`: first key that occurs as a
substring of the (lowercased) location wins; default is Paris. -/
def getLocationCoordinates (location : String) : Rat × Rat :=
  match locationCoordMap.find? (fun e => pyContains e.1 location) with
  | some e => e.2
  | none => (48.8566, 2.3522)

/-- `BookingService._get_country_from_location`. -/
def getCountryFromLocation (location : String) : String :=
  let l := strLower location
  if ["paris", "lyon", "nice", "marseille", "france"].any (fun c => pyContains c l) then "France"
  else if ["rome", "milan", "venice", "florence", "italy", "naples"].any (fun c => pyContains c l) then "Italy"
  else if ["london", "manchester", "edinburgh", "uk", "england"].any (fun c => pyContains c l) then "United Kingdom"
  else if ["barcelona", "madrid", "seville", "spain"].any (fun c => pyContains c l) then "Spain"
  else if ["berlin", "munich", "frankfurt", "germany"].any (fun c => pyContains c l) then "Germany"
  else if ["amsterdam", "netherlands", "holland"].any (fun c => pyContains c l) then "Netherlands"
  else if ["vienna", "austria"].any (fun c => pyContains c l) then "Austria"
  else if ["prague", "czech"].any (fun c => pyContains c l) then "Czech Republic"
  else "France"

/-! ### BookingService: deterministic coordinate offsets -/

/-- `get_coord_offset` inside `_generate_mock_hotel_database`.
`lh` stands for the Python value `hash(location) % 10000`: CPython string
hashing is salted per process, so the hash value is a free parameter here;
everything downstream is a deterministic function of it. -/
def getCoordOffset (lh : Nat) (index : Nat) (isLat : Bool) : Rat :=
  let multiplier : Nat := if isLat then 100 else 200
  ((((lh + index * multiplier) % 200 : Nat) : Rat) - 100) / 10000

/-- The offset index each of the ten catalog entries passes to
`get_coord_offset`, in catalog order (luxury, resort, boutique, business,
family, mid, spa, budget, historic, eco). -/
def offsetIndices : List Nat := [0, 1, 2, 3, 4, 3, 2, 7, 3, 2]

/-! ### BookingService: the ten-archetype mock catalog -/

/-- `BookingService._generate_mock_hotel_database`: the fixed ten-entry
catalog.  `qh` is the query fingerprint used as identifier stem, `lh` the
(process-salted) location hash driving the coordinate offsets. -/
def mockHotelDatabase (location : String) (baseLat baseLng : Rat)
    (qh : String) (lh : Nat) : List Hotel :=
  [{ hotel_id := qh ++ "_luxury_1",
     name := "Grand Palace Hotel " ++ location,
     address := "1 Champs-Élysées, " ++ location,
     city := location,
     country := getCountryFromLocation location,
     latitude := baseLat + getCoordOffset lh 0 true,
     longitude := baseLng + getCoordOffset lh 0 false,
     price := some 350.0,
     currency := "EUR",
     rating := some 4.9,
     review_score := some 9.5,
     review_count := 2340,
     amenities := ["WiFi", "Pool", "Spa", "Fitness Center", "Restaurant", "Bar",
                   "Room Service", "Concierge", "Valet Parking", "Business Center"],
     description := "Luxurious 5-star hotel in the heart of " ++ location ++
       ". Features elegant rooms, world-class spa, fine dining, and exceptional service. Perfect for business travelers and romantic getaways.",
     images := ["https://images.unsplash.com/photo-1566073771259-6a8506099945?w=800&h=600&fit=crop",
                "https://images.unsplash.com/photo-1551882547-ff40c63fe5fa?w=800&h=600&fit=crop",
                "https://images.unsplash.com/photo-1571896349842-33c89424de2d?w=800&h=600&fit=crop"],
     url := "https://booking.com/hotel/" ++ qh ++ "_luxury_1" },
   { hotel_id := qh ++ "_resort_1",
     name := "Seaside Luxury Resort " ++ location,
     address := "Beach Boulevard, " ++ location,
     city := location,
     country := getCountryFromLocation location,
     latitude := baseLat + getCoordOffset lh 1 true,
     longitude := baseLng + getCoordOffset lh 1 false,
     price := some 280.0,
     currency := "EUR",
     rating := some 4.7,
     review_score := some 9.1,
     review_count := 1890,
     amenities := ["WiFi", "Pool", "Spa", "Beach Access", "Restaurant", "Bar",
                   "Water Sports", "Kids Club", "Beach Bar", "Tennis Court"],
     description := "Stunning beachfront resort in " ++ location ++
       " with direct beach access. Features infinity pool, spa, multiple restaurants, and water sports. Ideal for families and couples seeking relaxation.",
     images := ["https://images.unsplash.com/photo-1571003123894-1f0594d2b5d9?w=800&h=600&fit=crop",
                "https://images.unsplash.com/photo-1582719478250-c89cae4dc85b?w=800&h=600&fit=crop",
                "https://images.unsplash.com/photo-1551882547-ff40c63fe5fa?w=800&h=600&fit=crop"],
     url := "https://booking.com/hotel/" ++ qh ++ "_resort_1" },
   { hotel_id := qh ++ "_boutique_1",
     name := "Romantic Boutique Hotel " ++ location,
     address := "Rue de la Romance, " ++ location,
     city := location,
     country := getCountryFromLocation location,
     latitude := baseLat + getCoordOffset lh 2 true,
     longitude := baseLng + getCoordOffset lh 2 false,
     price := some 180.0,
     currency := "EUR",
     rating := some 4.6,
     review_score := some 8.9,
     review_count := 1450,
     amenities := ["WiFi", "Spa", "Restaurant", "Bar", "Romantic Packages",
                   "Couples Massage", "Rooftop Terrace", "Wine Bar"],
     description := "Charming boutique hotel in " ++ location ++
       " perfect for romantic getaways. Intimate atmosphere, beautifully designed rooms, spa services, and fine dining. Highly rated by couples.",
     images := ["https://images.unsplash.com/photo-1590490360182-c33d57733427?w=800&h=600&fit=crop",
                "https://images.unsplash.com/photo-1564501049412-61c2a3083791?w=800&h=600&fit=crop",
                "https://images.unsplash.com/photo-1571896349842-33c89424de2d?w=800&h=600&fit=crop"],
     url := "https://booking.com/hotel/" ++ qh ++ "_boutique_1" },
   { hotel_id := qh ++ "_business_1",
     name := "Business Center Hotel " ++ location,
     address := "Financial District, " ++ location,
     city := location,
     country := getCountryFromLocation location,
     latitude := baseLat + getCoordOffset lh 3 true,
     longitude := baseLng + getCoordOffset lh 3 false,
     price := some 220.0,
     currency := "EUR",
     rating := some 4.4,
     review_score := some 8.6,
     review_count := 2100,
     amenities := ["WiFi", "Business Center", "Meeting Rooms", "Fitness Center",
                   "Restaurant", "Bar", "Airport Shuttle", "Concierge", "Laundry Service"],
     description := "Modern business hotel in " ++ location ++
       "\x27s financial district. Well-equipped meeting facilities, high-speed WiFi, fitness center, and convenient location for corporate travelers.",
     images := ["https://images.unsplash.com/photo-1566073771259-6a8506099945?w=800&h=600&fit=crop",
                "https://images.unsplash.com/photo-1590490360182-c33d57733427?w=800&h=600&fit=crop"],
     url := "https://booking.com/hotel/" ++ qh ++ "_business_1" },
   { hotel_id := qh ++ "_family_1",
     name := "Family Resort " ++ location,
     address := "Family Street, " ++ location,
     city := location,
     country := getCountryFromLocation location,
     latitude := baseLat + getCoordOffset lh 4 true,
     longitude := baseLng + getCoordOffset lh 4 false,
     price := some 160.0,
     currency := "EUR",
     rating := some 4.5,
     review_score := some 8.7,
     review_count := 3200,
     amenities := ["WiFi", "Pool", "Kids Club", "Playground", "Family Rooms",
                   "Restaurant", "Bar", "Entertainment", "Game Room", "Babysitting"],
     description := "Family-friendly resort in " ++ location ++
       " with extensive facilities for children. Large pool, kids club, playground, family rooms, and entertainment. Perfect for families with children.",
     images := ["https://images.unsplash.com/photo-1571003123894-1f0594d2b5d9?w=800&h=600&fit=crop",
                "https://images.unsplash.com/photo-1564501049412-61c2a3083791?w=800&h=600&fit=crop"],
     url := "https://booking.com/hotel/" ++ qh ++ "_family_1" },
   { hotel_id := qh ++ "_mid_1",
     name := "Comfort Inn " ++ location,
     address := "Main Avenue, " ++ location,
     city := location,
     country := getCountryFromLocation location,
     latitude := baseLat + getCoordOffset lh 3 true,
     longitude := baseLng + getCoordOffset lh 3 false,
     price := some 120.0,
     currency := "EUR",
     rating := some 4.2,
     review_score := some 8.3,
     review_count := 1850,
     amenities := ["WiFi", "Pool", "Restaurant", "Bar", "Parking", "Fitness Center"],
     description := "Comfortable mid-range hotel in " ++ location ++
       " with good value. Clean rooms, pool, restaurant, and convenient location. Great for travelers seeking comfort without luxury prices.",
     images := ["https://images.unsplash.com/photo-1590490360182-c33d57733427?w=800&h=600&fit=crop",
                "https://images.unsplash.com/photo-1566073771259-6a8506099945?w=800&h=600&fit=crop"],
     url := "https://booking.com/hotel/" ++ qh ++ "_mid_1" },
   { hotel_id := qh ++ "_spa_1",
     name := "Wellness Spa Hotel " ++ location,
     address := "Relaxation Road, " ++ location,
     city := location,
     country := getCountryFromLocation location,
     latitude := baseLat + getCoordOffset lh 2 true,
     longitude := baseLng + getCoordOffset lh 2 false,
     price := some 200.0,
     currency := "EUR",
     rating := some 4.6,
     review_score := some 8.8,
     review_count := 1650,
     amenities := ["WiFi", "Spa", "Wellness Center", "Massage", "Sauna",
                   "Steam Room", "Yoga Classes", "Restaurant", "Bar", "Pool"],
     description := "Dedicated wellness and spa hotel in " ++ location ++
       ". Extensive spa facilities, massage services, sauna, steam room, yoga classes, and healthy dining options. Perfect for relaxation and rejuvenation.",
     images := ["https://images.unsplash.com/photo-1571896349842-33c89424de2d?w=800&h=600&fit=crop",
                "https://images.unsplash.com/photo-1582719478250-c89cae4dc85b?w=800&h=600&fit=crop"],
     url := "https://booking.com/hotel/" ++ qh ++ "_spa_1" },
   { hotel_id := qh ++ "_budget_1",
     name := "Budget Inn " ++ location,
     address := "Economy Street, " ++ location,
     city := location,
     country := getCountryFromLocation location,
     latitude := baseLat + getCoordOffset lh 7 true,
     longitude := baseLng + getCoordOffset lh 7 false,
     price := some 65.0,
     currency := "EUR",
     rating := some 3.8,
     review_score := some 7.6,
     review_count := 2800,
     amenities := ["WiFi", "Parking", "24-Hour Reception"],
     description := "Affordable budget accommodation in " ++ location ++
       ". Basic but clean rooms, free WiFi, parking available. Great value for money-conscious travelers.",
     images := ["https://images.unsplash.com/photo-1590490360182-c33d57733427?w=800&h=600&fit=crop",
                "https://images.unsplash.com/photo-1564501049412-61c2a3083791?w=800&h=600&fit=crop"],
     url := "https://booking.com/hotel/" ++ qh ++ "_budget_1" },
   { hotel_id := qh ++ "_historic_1",
     name := "Historic Grand Hotel " ++ location,
     address := "Historic Square, " ++ location,
     city := location,
     country := getCountryFromLocation location,
     latitude := baseLat + getCoordOffset lh 3 true,
     longitude := baseLng + getCoordOffset lh 3 false,
     price := some 240.0,
     currency := "EUR",
     rating := some 4.7,
     review_score := some 9.0,
     review_count := 1950,
     amenities := ["WiFi", "Historic Building", "Restaurant", "Bar", "Concierge",
                   "Room Service", "Fitness Center"],
     description := "Beautifully restored historic hotel in the center of " ++ location ++
       ". Combines classic architecture with modern amenities. Elegant rooms, fine dining, and rich history.",
     images := ["https://images.unsplash.com/photo-1566073771259-6a8506099945?w=800&h=600&fit=crop",
                "https://images.unsplash.com/photo-1551882547-ff40c63fe5fa?w=800&h=600&fit=crop"],
     url := "https://booking.com/hotel/" ++ qh ++ "_historic_1" },
   { hotel_id := qh ++ "_eco_1",
     name := "Eco-Friendly Hotel " ++ location,
     address := "Green Boulevard, " ++ location,
     city := location,
     country := getCountryFromLocation location,
     latitude := baseLat + getCoordOffset lh 2 true,
     longitude := baseLng + getCoordOffset lh 2 false,
     price := some 140.0,
     currency := "EUR",
     rating := some 4.4,
     review_score := some 8.5,
     review_count := 1200,
     amenities := ["WiFi", "Eco-Friendly", "Organic Restaurant", "Bike Rental",
                   "Solar Power", "Recycling", "Garden"],
     description := "Environmentally conscious hotel in " ++ location ++
       ". Sustainable practices, organic restaurant, bike rental, solar power. Perfect for eco-conscious travelers.",
     images := ["https://images.unsplash.com/photo-1564501049412-61c2a3083791?w=800&h=600&fit=crop",
                "https://images.unsplash.com/photo-1590490360182-c33d57733427?w=800&h=600&fit=crop"],
     url := "https://booking.com/hotel/" ++ qh ++ "_eco_1" }]

/-! ### BookingService: filtering -/

/-- The budget-filter section of `_filter_mock_hotels` (max bound, then min
bound; each applied only when the Python value is truthy). -/
def budgetFilter (hotels : List Hotel) (p : SearchParams) : List Hotel :=
  let f1 := if ratTruthy p.budget_max then
      hotels.filter (fun h => decide (h.price.getD 0 ≤ p.budget_max.getD 0))
    else hotels
  if ratTruthy p.budget_min then
    f1.filter (fun h => decide (p.budget_min.getD 0 ≤ h.price.getD 0))
  else f1

/-- The per-hotel preference score of `_filter_mock_hotels`: a fixed +10 bonus
for each preference family whose condition holds. -/
def prefScoreMock (prefLower : List String) (h : Hotel) : Nat :=
  let amenitiesStr := String.intercalate " " (h.amenities.map strLower)
  let nameDesc := strLower (h.name ++ " " ++ h.description)
  (if prefLower.any (fun p => pyContains "luxury" p || pyContains "premium" p) then
     (if decide ((4.5 : Rat) ≤ h.rating.getD 0) || pyContains "luxury" nameDesc then 10 else 0)
   else 0)
  + (if prefLower.any (fun p => pyContains "budget" p || pyContains "cheap" p || pyContains "affordable" p) then
       (if decide (h.price.getD 0 ≤ (100 : Rat)) then 10 else 0)
     else 0)
  + (if prefLower.any (fun p => pyContains "romantic" p || pyContains "couple" p) then
       (if pyContains "romantic" nameDesc || pyContains "boutique" nameDesc || pyContains "spa" amenitiesStr then 10 else 0)
     else 0)
  + (if prefLower.any (fun p => pyContains "family" p || pyContains "kids" p) then
       (if pyContains "family" nameDesc || pyContains "kids" amenitiesStr then 10 else 0)
     else 0)
  + (if prefLower.any (fun p => pyContains "business" p || pyContains "corporate" p) then
       (if pyContains "business" nameDesc || pyContains "business" amenitiesStr then 10 else 0)
     else 0)
  + (if prefLower.any (fun p => pyContains "beach" p || pyContains "seaside" p) then
       (if pyContains "beach" nameDesc || pyContains "beach" amenitiesStr then 10 else 0)
     else 0)
  + (if prefLower.any (fun p => pyContains "pool" p) then
       (if pyContains "pool" amenitiesStr then 10 else 0)
     else 0)
  + (if prefLower.any (fun p => pyContains "spa" p || pyContains "wellness" p) then
       (if pyContains "spa" amenitiesStr || pyContains "wellness" amenitiesStr then 10 else 0)
     else 0)

/-- Descending-by-score comparison used with `mergeSort`; ties compare equal
both ways, so the (stable) merge sort keeps them in input order — exactly the
behaviour of Python `list.sort(key=..., reverse=True)`. -/
def scoreLE {α β : Type} [LinearOrder α] (a b : α × β) : Bool := decide (b.1 ≤ a.1)

/-- The preference-bias branch of `_filter_mock_hotels`: score every
candidate, sort stably by score descending and keep the positively scored
ones, or all of them when none scored positive. -/
def prefRankedHotels (prefLower : List String) (filtered : List Hotel) : List Hotel :=
  let scored := filtered.map (fun h => (prefScoreMock prefLower h, h))
  let sorted := scored.mergeSort scoreLE
  let pos := (sorted.filter (fun x => decide (0 < x.1))).map (·.2)
  if pos.isEmpty then sorted.map (·.2) else pos

/-- `BookingService._filter_mock_hotels`. -/
def filterMockHotels (hotels : List Hotel) (p : SearchParams) : List Hotel :=
  let filtered := budgetFilter hotels p
  let filtered2 := if p.preferences.isEmpty then filtered
    else prefRankedHotels (p.preferences.map strLower) filtered
  if 12 < filtered2.length then filtered2.take 12 else filtered2

/-! ### ChatGPTService: a small matcher for the fixed regex patterns

Every regex the service uses is a sequence of: literal text, `\s+`, `\s*`,
and one `(\d+)` capture group.  `matchToks` matches such a token sequence
against an initial segment of the input; `reSearch` mirrors `re.search` by
trying every start position left to right.  (For these patterns the greedy
`takeWhile` semantics coincides with the regex engine: a maximal digit or
whitespace run is never followed by a character of the same class.) -/

inductive Tok where
  | lit (cs : List Char)
  | ws1
  | ws0
  | grp
  deriving DecidableEq

/-- Numeric value of a digit run. -/
def digitsToNat (cs : List Char) : Nat :=
  cs.foldl (fun n c => n * 10 + (c.toNat - 48)) 0

/-- Match a token sequence against an initial segment of `s`.
`none` = no match; `some none` = match without a capture group;
`some (some n)` = match capturing the number `n`. -/
def matchToks : List Tok → List Char → Option (Option Nat)
  | [], _ => some none
  | Tok.lit cs :: ts, s =>
      if cs.isPrefixOf s then matchToks ts (s.drop cs.length) else none
  | Tok.ws1 :: ts, s =>
      let w := s.takeWhile Char.isWhitespace
      if w.isEmpty then none else matchToks ts (s.drop w.length)
  | Tok.ws0 :: ts, s => matchToks ts (s.dropWhile Char.isWhitespace)
  | Tok.grp :: ts, s =>
      let d := s.takeWhile Char.isDigit
      if d.isEmpty then none
      else match matchToks ts (s.drop d.length) with
        | some none => some (some (digitsToNat d))
        | some (some n) => some (some n)
        | none => none

/-- `re.search`: leftmost start position at which the pattern matches. -/
def reSearch (toks : List Tok) (s : List Char) : Option (Option Nat) :=
  (List.range (s.length + 1)).findSome? fun i => matchToks toks (s.drop i)

/-- Shorthand for a literal token. -/
def litTok (w : String) : Tok := Tok.lit w.data

/-- Run a pattern list in priority order; the first pattern that matches
anywhere yields the result (mirrors the `for pattern ...: if match: break`
loops). -/
def firstPattern (pats : List (List Tok)) (s : List Char) : Option (Option Nat) :=
  pats.findSome? fun p => reSearch p s

/-! ### ChatGPTService: rule-based parameter extraction fallback -/

/-- The `budget_patterns` list of `_fallback_extract_parameters`, in source
order: `under N`, `below N`, `less than N`, `up to N`, `max N`, `maximum N`,
`N€`, `Neur`, `Neuro`. -/
def extractBudgetPatterns : List (List Tok) :=
  [[litTok "under", Tok.ws1, Tok.grp],
   [litTok "below", Tok.ws1, Tok.grp],
   [litTok "less", Tok.ws1, litTok "than", Tok.ws1, Tok.grp],
   [litTok "up", Tok.ws1, litTok "to", Tok.ws1, Tok.grp],
   [litTok "max", Tok.ws1, Tok.grp],
   [litTok "maximum", Tok.ws1, Tok.grp],
   [Tok.grp, Tok.ws0, litTok "€"],
   [Tok.grp, Tok.ws0, litTok "eur"],
   [Tok.grp, Tok.ws0, litTok "euro"]]

/-- The budget extraction loop of `_fallback_extract_parameters`:
every pattern has a capture group, so a match always yields a number. -/
def extractBudgetMax (userLower : List Char) : Option Rat :=
  match firstPattern extractBudgetPatterns userLower with
  | some (some n) => some (n : Rat)
  | _ => none

/-- The location gazetteer of `_fallback_extract_parameters`, in source order. -/
def fallbackLocations : List String :=
  ["italy", "france", "spain", "paris", "rome", "london", "berlin", "amsterdam",
   "vienna", "prague", "barcelona", "madrid", "milan", "venice", "florence",
   "lake como", "tuscany", "santorini", "mykonos", "bali", "thailand"]

/-- The preference keyword table of `_fallback_extract_parameters`, in dict
insertion order. -/
def extractPrefKeywords : List (String × List String) :=
  [("romantic", ["romantic", "romance", "couple", "honeymoon"]),
   ("family", ["family", "family-friendly", "kids", "children"]),
   ("luxury", ["luxury", "luxurious", "5-star", "five star"]),
   ("beach", ["beach", "seaside", "coastal", "ocean"]),
   ("mountain", ["mountain", "alpine", "ski"]),
   ("city", ["city", "urban", "downtown"])]

/-- `ChatGPTService._fallback_extract_parameters`: deterministic rule-based
extraction used when the inference service is unavailable. -/
def fallbackExtractParameters (userDemand : String) : ExtractedParams :=
  let userLowerS := strLower userDemand
  let userLower := userLowerS.data
  let location := (fallbackLocations.find? fun loc => pyContains loc userLowerS).map pyTitle
  let budget_max := extractBudgetMax userLower
  let preferences := (extractPrefKeywords.filter fun e =>
    e.2.any fun kw => pyContains kw userLowerS).map (·.1)
  let adults := match reSearch [Tok.grp, Tok.ws1, litTok "adult"] userLower with
    | some (some n) => n
    | _ => 1
  { location := location,
    check_in := none,
    check_out := none,
    budget_min := none,
    budget_max := budget_max,
    adults := adults,
    children := 0,
    rooms := 1,
    preferences := if preferences.isEmpty then none else some preferences }

/-! ### ChatGPTService: rule-based ranking fallback -/

/-- The `budget_patterns` list of `_fallback_filter_hotels`, in source order;
the bare keywords `budget`, `cheap`, `affordable` match without a capture
group. -/
def filterBudgetPatterns : List (List Tok) :=
  [[litTok "under", Tok.ws1, Tok.grp],
   [litTok "below", Tok.ws1, Tok.grp],
   [litTok "less", Tok.ws1, litTok "than", Tok.ws1, Tok.grp],
   [litTok "up", Tok.ws1, litTok "to", Tok.ws1, Tok.grp],
   [Tok.grp, Tok.ws0, litTok "€"],
   [Tok.grp, Tok.ws0, litTok "eur"],
   [litTok "budget"],
   [litTok "cheap"],
   [litTok "affordable"]]

/-- The budget-detection loop of `_fallback_filter_hotels`: a groupless match
("budget", "cheap", "affordable") sets a low ceiling of 100.0. -/
def detectFilterBudgetMax (userLower : List Char) : Option Rat :=
  match firstPattern filterBudgetPatterns userLower with
  | some (some n) => some (n : Rat)
  | some none => some 100.0
  | none => none

/-- The `preference_keywords` table of `_fallback_filter_hotels`, in dict
insertion order. -/
def filterPrefKeywords : List (String × List String) :=
  [("luxury", ["luxury", "premium", "5-star", "five star"]),
   ("budget", ["budget", "cheap", "affordable", "economy"]),
   ("romantic", ["romantic", "honeymoon", "couple"]),
   ("family", ["family", "kids", "children", "family-friendly"]),
   ("business", ["business", "corporate", "conference"]),
   ("beach", ["beach", "seaside", "ocean", "coast"]),
   ("pool", ["pool", "swimming"]),
   ("spa", ["spa", "wellness", "massage"])]

/-- The detected-preference list of `_fallback_filter_hotels`. -/
def detectedPreferences (userLowerS : String) : List String :=
  (filterPrefKeywords.filter fun e => e.2.any fun kw => pyContains kw userLowerS).map (·.1)

/-- Python `hotel.get("rating") or hotel.get("review_score", 0)`:
the rating when it is truthy, otherwise the review score (0 when absent). -/
def ratingOrReview (h : Hotel) : Rat :=
  if ratTruthy h.rating then h.rating.getD 0 else h.review_score.getD 0

/-- The per-hotel score of `_fallback_filter_hotels` given the detected
budget ceiling and preference list. -/
def fallbackFilterScore (budgetMax : Option Rat) (prefs : List String) (h : Hotel) : Rat :=
  let name := strLower h.name
  let amenitiesStr := String.intercalate " " (h.amenities.map strLower)
  let description := strLower h.description
  let budgetPart : Rat :=
    if ratTruthy budgetMax && ratTruthy h.price then
      (if h.price.getD 0 ≤ budgetMax.getD 0 then 10 else -5)
    else 0
  let luxuryPart : Rat :=
    if prefs.contains "luxury" then
      (if ratTruthy (some (ratingOrReview h)) && decide ((4.5 : Rat) ≤ ratingOrReview h) then 5 else 0)
      + (if pyContains "luxury" name || pyContains "resort" name || pyContains "grand" name then 3 else 0)
    else 0
  let budgetPrefPart : Rat :=
    if prefs.contains "budget" then
      (if ratTruthy h.price && decide (h.price.getD 0 ≤ (100 : Rat)) then 5 else 0)
      + (if pyContains "budget" name || pyContains "inn" name || pyContains "hostel" name then 3 else 0)
    else 0
  let romanticPart : Rat :=
    if prefs.contains "romantic" then
      (if ["spa", "romantic", "boutique"].any (fun kw => pyContains kw amenitiesStr || pyContains kw description) then 5 else 0)
    else 0
  let familyPart : Rat :=
    if prefs.contains "family" then
      (if ["pool", "kids", "family", "playground"].any (fun kw => pyContains kw amenitiesStr || pyContains kw description) then 5 else 0)
    else 0
  let beachPart : Rat :=
    if prefs.contains "beach" then
      (if ["beach", "ocean", "seaside", "coast"].any (fun kw => pyContains kw amenitiesStr || pyContains kw description || pyContains kw name) then 5 else 0)
    else 0
  let poolPart : Rat :=
    if prefs.contains "pool" then (if pyContains "pool" amenitiesStr then 5 else 0) else 0
  let spaPart : Rat :=
    if prefs.contains "spa" then (if pyContains "spa" amenitiesStr then 5 else 0) else 0
  let ratingPart : Rat :=
    if ratTruthy (some (ratingOrReview h)) then ratingOrReview h * 1.5 else 0
  budgetPart + luxuryPart + budgetPrefPart + romanticPart + familyPart
    + beachPart + poolPart + spaPart + ratingPart + 1

/-- The scored `(score, hotel_id)` list built by `_fallback_filter_hotels`
(hotels without an identifier are skipped). -/
def scoredCandidates (userDemand : String) (hotels : List Hotel) : List (Rat × String) :=
  let userLowerS := strLower userDemand
  let budgetMax := detectFilterBudgetMax userLowerS.data
  let prefs := detectedPreferences userLowerS
  hotels.filterMap fun h =>
    if h.hotel_id = "" then none else some (fallbackFilterScore budgetMax prefs h, h.hotel_id)

/-- `ChatGPTService._fallback_filter_hotels`: score every identified hotel,
sort stably by score descending, return all identifiers. -/
def fallbackFilterHotels (userDemand : String) (hotels : List Hotel) : List String :=
  ((scoredCandidates userDemand hotels).mergeSort scoreLE).map (·.2)

/-! ### ChatGPTService: extract_search_parameters error policy

The network call itself is external; its observable outcome is modelled by
`SvcOutcome`.  JSON parsing of a successful response body is modelled by an
abstract parser `jsonParse` (the body is produced by the external service, so
its format is an interface-boundary concern). -/

inductive SvcOutcome where
  | ok (content : String)
  | rateLimitError (msg : String)
  | apiError (msg : String)
  | otherError (msg : String)
  deriving DecidableEq

inductive ExtractOutcome where
  | params (p : ExtractedParams)
  | raised (msg : String)
  deriving DecidableEq

/-- The quota/throttle classification applied to `str(e)` in both `except`
blocks: `insufficient_quota` (case-insensitive), `429`, or `rate_limit`
(case-insensitive). -/
def isQuotaSignal (msg : String) : Bool :=
  pyContains "insufficient_quota" (strLower msg) || pyContains "429" msg
    || pyContains "rate_limit" (strLower msg)

/-- Index of the first occurrence of `needle` in `hay` (Python `str.find`). -/
def findSubIdx (needle hay : List Char) : Option Nat :=
  (List.range (hay.length + 1)).find? fun i => needle.isPrefixOf (hay.drop i)

/-- The fenced-code recovery of `extract_search_parameters`: take the text
between ` ```json ` and the next ` ``` ` and strip surrounding whitespace
(Python slices with `find`, which yields -1 — i.e. "up to the last
character" — when the closing fence is missing). -/
def stripJsonFence (content : String) : String :=
  let cs := content.data
  match findSubIdx "```json".data cs with
  | none => content
  | some i =>
    let start := i + 7
    let rest := cs.drop start
    let body := match findSubIdx "```".data rest with
      | some j => rest.take j
      | none => rest.dropLast
    String.mk ((body.dropWhile Char.isWhitespace).reverse.dropWhile Char.isWhitespace |>.reverse)

/-- `ChatGPTService.extract_search_parameters`.  `cfgApiKey` is whether an
OpenAI credential is configured: without one, `self.client` is `None` and the
attribute access inside the `try` block raises an `AttributeError`, which the
final `except Exception` block re-raises (there is no `if not self.client`
guard in this method, unlike `filter_hotels_by_demand`).  `jsonParse` models
`json.loads` plus schema validation of the response body. -/
def extractSearchParameters (cfgApiKey : Bool) (userDemand : String)
    (svc : SvcOutcome) (jsonParse : String → Option ExtractedParams) : ExtractOutcome :=
  if !cfgApiKey then
    ExtractOutcome.raised "AttributeError: NoneType object has no attribute chat"
  else match svc with
  | SvcOutcome.ok content =>
    match jsonParse content with
    | some p => ExtractOutcome.params p
    | none =>
      if pyContains "```json" content then
        match jsonParse (stripJsonFence content) with
        | some p => ExtractOutcome.params p
        | none => ExtractOutcome.raised "JSONDecodeError"
      else ExtractOutcome.raised "JSONDecodeError"
  | SvcOutcome.rateLimitError _ => ExtractOutcome.params (fallbackExtractParameters userDemand)
  | SvcOutcome.apiError msg =>
    if isQuotaSignal msg then ExtractOutcome.params (fallbackExtractParameters userDemand)
    else ExtractOutcome.raised msg
  | SvcOutcome.otherError msg => ExtractOutcome.raised msg

/-! ### Orchestrator (recommendations.py) and hotel store (crud/hotel.py) -/

/-- The persisted store, as the hydration loop observes it: a lookup from
`hotel_id` to the stored full payload.  `none` covers "no record", "record
with falsy booking_data", and "lookup raised" alike — all take the same
branch in the source. -/
def HotelStore : Type := String → Option Hotel

/-- `bulk_create_or_update_hotels`: upsert every hotel that has a non-empty
identifier, last write wins per identifier. -/
def upsertMany (hotels : List Hotel) (db : HotelStore) : HotelStore :=
  hotels.foldl (fun m h =>
    if h.hotel_id = "" then m
    else fun k => if k = h.hotel_id then some h else m k) db

/-- The `hotels_by_id` dict comprehension of `recommend_hotels`: fresh
candidates keyed by identifier (empty identifiers excluded, later duplicates
overwrite earlier ones). -/
def hotelsById (hotels : List Hotel) : String → Option Hotel :=
  hotels.foldl (fun m h =>
    if h.hotel_id = "" then m
    else fun k => if k = h.hotel_id then some h else m k) (fun _ => none)

/-- The hydration loop of `recommend_hotels`: for each ranked identifier take
the fresh candidate if present, otherwise the persisted record, otherwise
drop the identifier. -/
def hydrateIds (ids : List String) (fresh : String → Option Hotel) (db : HotelStore) :
    List Hotel :=
  ids.foldl (fun acc i =>
    match fresh i with
    | some h => acc ++ [h]
    | none =>
      match db i with
      | some h => acc ++ [h]
      | none => acc) []

/-- `RecommendationResponse`. -/
structure RecommendationResult where
  user_demand : String
  extracted_parameters : SearchParams
  matched_hotels : List Hotel
  total_results : Nat
  message : String
  deriving DecidableEq

/-- The post-search part of `recommend_hotels` (steps 2–4): the search result
`hotels` is given; `ranker` models `filter_hotels_by_demand`; `persistOk`
models whether the best-effort bulk upsert succeeded (on failure the request
continues with the store unchanged).  Returns the response together with the
store left behind. -/
def recommendHotels (userDemand : String) (searchParams : SearchParams)
    (hotels : List Hotel) (ranker : String → List Hotel → List String)
    (db : HotelStore) (persistOk : Bool) : RecommendationResult × HotelStore :=
  if hotels.isEmpty then
    ({ user_demand := userDemand,
       extracted_parameters := searchParams,
       matched_hotels := [],
       total_results := 0,
       message := "No hotels found matching your criteria." }, db)
  else
    let db1 := if persistOk then upsertMany hotels db else db
    let matchedIds := ranker userDemand hotels
    let fresh := hotelsById hotels
    let matched := hydrateIds matchedIds fresh db1
    ({ user_demand := userDemand,
       extracted_parameters := searchParams,
       matched_hotels := matched,
       total_results := matched.length,
       message := "Found " ++ Nat.repr matched.length ++ " hotels matching your preferences." }, db1)

/-! ### Query fingerprint: Python f-string rendering and MD5 (RFC 1321)

`_get_mock_hotels` hashes
`f"{location}_{budget_min}_{budget_max}_{preferences}"` with MD5 and keeps
the first 8 hex digits.  The f-string pieces are rendered as Python renders
them: floats by their decimal repr (all budget values in this service are
exact decimals), `None` as `"None"`, string lists by their list repr. -/

/-- Left-pad a digit string with zeros to length `k`. -/
def padZeros (s : String) (k : Nat) : String :=
  String.mk (List.replicate (k - s.length) '0') ++ s

/-- Python `repr`/`str` of a float, for rationals with a finite decimal
expansion (every budget figure the service produces is such a value). -/
def pyShowFloat (q : Rat) : String :=
  let sign := if q < 0 then "-" else ""
  let aq := |q|
  match (List.range 18).find? (fun k => (aq * (10 : Rat) ^ k).den = 1) with
  | some k =>
    let scaled := (aq * (10 : Rat) ^ k).num.toNat
    let ip := scaled / 10 ^ k
    let fp := scaled % 10 ^ k
    if k = 0 then sign ++ Nat.repr ip ++ ".0"
    else sign ++ Nat.repr ip ++ "." ++ padZeros (Nat.repr fp) k
  | none => sign ++ Nat.repr aq.num.toNat ++ "/" ++ Nat.repr aq.den

/-- Python `str` of an `Optional[float]`. -/
def pyShowOptRat : Option Rat → String
  | none => "None"
  | some q => pyShowFloat q

/-- Python `repr` of a string (as it appears inside a list repr), for the
plain keyword strings this service handles. -/
def pyReprStr (s : String) : String :=
  if s.data.contains '\x27' && !s.data.contains '"' then "\"" ++ s ++ "\""
  else "\x27" ++ String.mk ((s.data.map fun c =>
    if c = '\x27' then ['\\', '\x27'] else [c]).flatten) ++ "\x27"

/-- Python `str` of a list of strings (its repr). -/
def pyReprListStr (l : List String) : String :=
  "[" ++ String.intercalate ", " (l.map pyReprStr) ++ "]"

/-- The exact string `_get_mock_hotels` feeds to `hashlib.md5`. -/
def queryString (location : String) (bmin bmax : Option Rat) (prefs : List String) : String :=
  location ++ "_" ++ pyShowOptRat bmin ++ "_" ++ pyShowOptRat bmax ++ "_" ++ pyReprListStr prefs

/-- UTF-8 encoding of one character (Python `str.encode()`). -/
def charUtf8 (c : Char) : List Nat :=
  let n := c.toNat
  if n < 128 then [n]
  else if n < 2048 then [192 + n / 64, 128 + n % 64]
  else if n < 65536 then [224 + n / 4096, 128 + n / 64 % 64, 128 + n % 64]
  else [240 + n / 262144, 128 + n / 4096 % 64, 128 + n / 64 % 64, 128 + n % 64]

/-- UTF-8 encoding of a string as a byte (Nat < 256) list. -/
def utf8Encode (s : String) : List Nat := (s.data.map charUtf8).flatten

/-- The 64 MD5 round constants (RFC 1321). -/
def md5K : List Nat :=
  [0xd76aa478, 0xe8c7b756, 0x242070db, 0xc1bdceee,
   0xf57c0faf, 0x4787c62a, 0xa8304613, 0xfd469501,
   0x698098d8, 0x8b44f7af, 0xffff5bb1, 0x895cd7be,
   0x6b901122, 0xfd987193, 0xa679438e, 0x49b40821,
   0xf61e2562, 0xc040b340, 0x265e5a51, 0xe9b6c7aa,
   0xd62f105d, 0x02441453, 0xd8a1e681, 0xe7d3fbc8,
   0x21e1cde6, 0xc33707d6, 0xf4d50d87, 0x455a14ed,
   0xa9e3e905, 0xfcefa3f8, 0x676f02d9, 0x8d2a4c8a,
   0xfffa3942, 0x8771f681, 0x6d9d6122, 0xfde5380c,
   0xa4beea44, 0x4bdecfa9, 0xf6bb4b60, 0xbebfbc70,
   0x289b7ec6, 0xeaa127fa, 0xd4ef3085, 0x04881d05,
   0xd9d4d039, 0xe6db99e5, 0x1fa27cf8, 0xc4ac5665,
   0xf4292244, 0x432aff97, 0xab9423a7, 0xfc93a039,
   0x655b59c3, 0x8f0ccc92, 0xffeff47d, 0x85845dd1,
   0x6fa87e4f, 0xfe2ce6e0, 0xa3014314, 0x4e0811a1,
   0xf7537e82, 0xbd3af235, 0x2ad7d2bb, 0xeb86d391]

/-- The 64 MD5 per-round left-rotation amounts. -/
def md5S : List Nat :=
  [7, 12, 17, 22, 7, 12, 17, 22, 7, 12, 17, 22, 7, 12, 17, 22,
   5, 9, 14, 20, 5, 9, 14, 20, 5, 9, 14, 20, 5, 9, 14, 20,
   4, 11, 16, 23, 4, 11, 16, 23, 4, 11, 16, 23, 4, 11, 16, 23,
   6, 10, 15, 21, 6, 10, 15, 21, 6, 10, 15, 21, 6, 10, 15, 21]

/-- 32-bit complement (for values < 2^32). -/
def not32 (x : Nat) : Nat := Nat.xor (x % 2 ^ 32) (2 ^ 32 - 1)

/-- 32-bit left rotation (for values < 2^32). -/
def rotl32 (x s : Nat) : Nat := (x * 2 ^ s) % 2 ^ 32 + x / 2 ^ (32 - s)

/-- One MD5 round, applied to the state `(a, b, c, d)`; `M` looks up the
sixteen 32-bit little-endian words of the current chunk. -/
def md5Round (M : Nat → Nat) (st : Nat × Nat × Nat × Nat) (i : Nat) :
    Nat × Nat × Nat × Nat :=
  let (a, b, c, d) := st
  let fg : Nat × Nat :=
    if i < 16 then (Nat.lor (Nat.land b c) (Nat.land (not32 b) d), i)
    else if i < 32 then (Nat.lor (Nat.land d b) (Nat.land (not32 d) c), (5 * i + 1) % 16)
    else if i < 48 then (Nat.xor b (Nat.xor c d), (3 * i + 5) % 16)
    else (Nat.xor c (Nat.lor b (not32 d)), (7 * i) % 16)
  let f2 := (fg.1 + a + md5K.getD i 0 + M fg.2) % 2 ^ 32
  (d, (b + rotl32 f2 (md5S.getD i 0)) % 2 ^ 32, b, c)

/-- Process one 64-byte chunk. -/
def md5ProcessChunk (st : Nat × Nat × Nat × Nat) (chunk : List Nat) :
    Nat × Nat × Nat × Nat :=
  let M : Nat → Nat := fun g =>
    chunk.getD (4 * g) 0 + 256 * chunk.getD (4 * g + 1) 0
      + 65536 * chunk.getD (4 * g + 2) 0 + 16777216 * chunk.getD (4 * g + 3) 0
  let r := (List.range 64).foldl (md5Round M) st
  ((st.1 + r.1) % 2 ^ 32, (st.2.1 + r.2.1) % 2 ^ 32,
   (st.2.2.1 + r.2.2.1) % 2 ^ 32, (st.2.2.2 + r.2.2.2) % 2 ^ 32)

/-- MD5 padding: `0x80`, zeros to 56 mod 64, then the 64-bit little-endian
bit length. -/
def md5Pad (bytes : List Nat) : List Nat :=
  let n := bytes.length
  let zeros := (56 + 64 - (n + 1) % 64) % 64
  let bitLen := (8 * n) % 2 ^ 64
  bytes ++ [0x80] ++ List.replicate zeros 0
    ++ ((List.range 8).map fun i => bitLen / 2 ^ (8 * i) % 256)

/-- Split a byte list into 64-byte chunks. -/
def toChunks64 : List Nat → List (List Nat)
  | [] => []
  | b :: bs => ((b :: bs).take 64) :: toChunks64 ((b :: bs).drop 64)
termination_by l => l.length
decreasing_by simp [List.length_drop]; omega

/-- The first state word of the MD5 digest of a byte string. -/
def md5StateA (bytes : List Nat) : Nat :=
  ((toChunks64 (md5Pad bytes)).foldl md5ProcessChunk
    (0x67452301, 0xefcdab89, 0x98badcfe, 0x10325476)).1

/-- The value of the first 8 hex digits of `hashlib.md5(s.encode()).hexdigest()`
as a number < 2^32 (the digest starts with the little-endian bytes of the
final first state word). -/
def md5Hex8Nat (s : String) : Nat :=
  let a := md5StateA (utf8Encode s)
  ((a % 256 * 256 + a / 256 % 256) * 256 + a / 65536 % 256) * 256 + a / 16777216 % 256

/-- Hex digit characters. -/
def hexDigitChar (n : Nat) : Char := "0123456789abcdef".data.getD n '0'

/-- Render a value < 2^32 as 8 lowercase hex digits. -/
def natToHex8 (v : Nat) : String :=
  String.mk ((List.range 8).map fun i => hexDigitChar (v / 16 ^ (7 - i) % 16))

/-- `hashlib.md5(s.encode()).hexdigest()[:8]`. -/
def md5Hex8 (s : String) : String := natToHex8 (md5Hex8Nat s)

/-- `parameters.location or "Paris"`: a missing or empty (falsy) location
defaults to Paris. -/
def defaultLocation (p : SearchParams) : String :=
  match p.location with
  | none => "Paris"
  | some s => if s = "" then "Paris" else s

/-- `BookingService._get_mock_hotels`: default the location, resolve
coordinates, fingerprint the query, generate the catalog, filter it.
`lh` is the process-salted `hash(location) % 10000` (see `getCoordOffset`). -/
def getMockHotels (p : SearchParams) (lh : Nat) : List Hotel :=
  let location := defaultLocation p
  let coords := getLocationCoordinates (strLower location)
  let qh := md5Hex8 (queryString location p.budget_min p.budget_max p.preferences)
  filterMockHotels (mockHotelDatabase location coords.1 coords.2 qh lh) p

/-- The query-defining tuple `{location, budget_min, budget_max, preferences}`
whose rendering is fingerprinted. -/
structure QueryKey where
  location : String
  budget_min : Option Rat := none
  budget_max : Option Rat := none
  preferences : List String := []
  deriving DecidableEq

/-- The fingerprint of a query tuple, as a number < 2^32. -/
def queryKeyFingerprintNat (t : QueryKey) : Nat :=
  md5Hex8Nat (queryString t.location t.budget_min t.budget_max t.preferences)

/-- The fingerprint of a query tuple: the 8-hex-digit identifier stem. -/
def queryKeyFingerprint (t : QueryKey) : String :=
  md5Hex8 (queryString t.location t.budget_min t.budget_max t.preferences)

/-! ### Helper lemmas -/

/-- A guarded `filterMap` is a `filter` followed by a `map`. -/
theorem filterMap_guard {α β : Type} (q : α → Prop) [DecidablePred q] (f : α → β) :
    ∀ l : List α, (l.filterMap fun a => if q a then none else some (f a))
      = (l.filter fun a => !decide (q a)).map f := by
  intro l
  induction l with
  | nil => rfl
  | cons x xs ih =>
    by_cases h : q x <;> simp [List.filterMap_cons, List.filter_cons, h, ih]

/-- `scoreLE` is transitive. -/
theorem scoreLE_trans {α β : Type} [LinearOrder α] (a b c : α × β)
    (h1 : scoreLE a b) (h2 : scoreLE b c) : scoreLE a c := by
  simp only [scoreLE, decide_eq_true_eq] at h1 h2 ⊢
  exact le_trans h2 h1

/-- `scoreLE` is total. -/
theorem scoreLE_total {α β : Type} [LinearOrder α] (a b : α × β) :
    scoreLE a b || scoreLE b a := by
  simp only [scoreLE, Bool.or_eq_true, decide_eq_true_eq]
  exact le_total b.1 a.1

/-- The hydration loop accumulates exactly the resolvable identifiers in
order, each resolved fresh-first. -/
theorem hydrateIds_loop (fresh db : String → Option Hotel) :
    ∀ (ids : List String) (acc : List Hotel),
      ids.foldl (fun acc i =>
        match fresh i with
        | some h => acc ++ [h]
        | none =>
          match db i with
          | some h => acc ++ [h]
          | none => acc) acc
      = acc ++ ids.filterMap (fun i => (fresh i).or (db i)) := by
  intro ids
  induction ids with
  | nil => simp
  | cons i ids ih =>
    intro acc
    cases hf : fresh i with
    | some h => simp [List.filterMap_cons, hf, ih, Option.or]
    | none =>
      cases hd : db i with
      | some h => simp [List.filterMap_cons, hf, hd, ih, Option.or]
      | none => simp [List.filterMap_cons, hf, hd, ih, Option.or]

/-- `hydrateIds`, described per identifier: fresh candidate first, then the
store, and identifiers absent from both contribute nothing. -/
theorem hydrateIds_eq (ids : List String) (fresh db : String → Option Hotel) :
    hydrateIds ids fresh db = ids.filterMap fun i => (fresh i).or (db i) := by
  unfold hydrateIds
  exact hydrateIds_loop fresh db ids []

/-! ### Claim C2 -/

/-- C2: when the candidate search returns an empty list the pipeline returns
`total_results = 0`, an empty `matched_hotels` list and the
"no hotels found" message, leaves the persisted store untouched, and its
result does not depend on the ranking stage, the store, or the persistence
outcome (those stages are not invoked). -/
theorem claim_C2_empty_search_short_circuit (userDemand : String)
    (searchParams : SearchParams) (ranker : String → List Hotel → List String)
    (db : HotelStore) (persistOk : Bool) :
    recommendHotels userDemand searchParams [] ranker db persistOk
      = ({ user_demand := userDemand,
           extracted_parameters := searchParams,
           matched_hotels := [],
           total_results := 0,
           message := "No hotels found matching your criteria." }, db)
    ∧ (∀ (ranker2 : String → List Hotel → List String) (db2 : HotelStore) (persistOk2 : Bool),
        (recommendHotels userDemand searchParams [] ranker db persistOk).1
          = (recommendHotels userDemand searchParams [] ranker2 db2 persistOk2).1) :=
  ⟨rfl, fun _ _ _ => rfl⟩

/-! ### Claim C10 -/

/-- C10: every response of the recommendation pipeline — the empty-search
result and the normal result alike — satisfies
`total_results = matched_hotels.length`. -/
theorem claim_C10_total_results_invariant (userDemand : String)
    (searchParams : SearchParams) (hotels : List Hotel)
    (ranker : String → List Hotel → List String) (db : HotelStore) (persistOk : Bool) :
    (recommendHotels userDemand searchParams hotels ranker db persistOk).1.total_results
      = (recommendHotels userDemand searchParams hotels ranker db persistOk).1.matched_hotels.length := by
  by_cases h : hotels.isEmpty <;> simp [recommendHotels, h]

/-! ### Claim C4 (corrected) -/

/-- C4 counterexample: with no credential configured, `extract_search_parameters`
does not return the rule-based fallback result — the attribute access on the
`None` client raises, and the final `except Exception` block re-raises. -/
theorem claim_C4_counterexample :
    extractSearchParameters false "hotels in paris" (SvcOutcome.ok "{}") (fun _ => none)
      = ExtractOutcome.raised "AttributeError: NoneType object has no attribute chat"
    ∧ ExtractOutcome.raised "AttributeError: NoneType object has no attribute chat"
      ≠ ExtractOutcome.params (fallbackExtractParameters "hotels in paris") :=
  ⟨rfl, by decide⟩

/-- C4 (amended): the extraction falls back to the rule-based path exactly on
a `RateLimitError`, or on an `APIError` whose text carries a quota/throttle
marker (`insufficient_quota`, `429`, `rate_limit`); an `APIError` without such
a marker, any other exception, and the no-credential case all raise to the
caller. -/
theorem claim_C4_fallback_escalation (userDemand msg : String)
    (jsonParse : String → Option ExtractedParams) :
    (extractSearchParameters true userDemand (SvcOutcome.rateLimitError msg) jsonParse
       = ExtractOutcome.params (fallbackExtractParameters userDemand))
    ∧ (isQuotaSignal msg = true →
        extractSearchParameters true userDemand (SvcOutcome.apiError msg) jsonParse
          = ExtractOutcome.params (fallbackExtractParameters userDemand))
    ∧ (isQuotaSignal msg = false →
        extractSearchParameters true userDemand (SvcOutcome.apiError msg) jsonParse
          = ExtractOutcome.raised msg)
    ∧ (∀ svc : SvcOutcome,
        extractSearchParameters false userDemand svc jsonParse
          = ExtractOutcome.raised "AttributeError: NoneType object has no attribute chat")
    ∧ (extractSearchParameters true userDemand (SvcOutcome.otherError msg) jsonParse
        = ExtractOutcome.raised msg) := by
  refine ⟨rfl, fun h => ?_, fun h => ?_, fun svc => rfl, rfl⟩
  · simp [extractSearchParameters, h]
  · simp [extractSearchParameters, h]

/-- C4 witness: a quota-marked `APIError` on a concrete demand engages the
rule-based fallback. -/
theorem claim_C4_fallback_escalation_witness :
    isQuotaSignal "Error code: 429 - insufficient_quota" = true
    ∧ extractSearchParameters true "cheap stay"
        (SvcOutcome.apiError "Error code: 429 - insufficient_quota") (fun _ => none)
      = ExtractOutcome.params (fallbackExtractParameters "cheap stay") :=
  ⟨by decide,
   (claim_C4_fallback_escalation "cheap stay" "Error code: 429 - insufficient_quota"
     (fun _ => none)).2.1 (by decide)⟩

/-! ### Claim C5 (corrected) -/

/-- C5 counterexample: in one generated batch (location "Paris", any fixed
location hash, here 0), the archetypes at catalog positions 3 (business) and
5 (mid-range) are distinct hotels yet share both the latitude and the
longitude offset — the offsets do not differ across archetypes. -/
theorem claim_C5_counterexample :
    ((mockHotelDatabase "Paris" 48.8566 2.3522 "abcd1234" 0).map Hotel.latitude)[3]?
      = ((mockHotelDatabase "Paris" 48.8566 2.3522 "abcd1234" 0).map Hotel.latitude)[5]?
    ∧ ((mockHotelDatabase "Paris" 48.8566 2.3522 "abcd1234" 0).map Hotel.longitude)[3]?
      = ((mockHotelDatabase "Paris" 48.8566 2.3522 "abcd1234" 0).map Hotel.longitude)[5]?
    ∧ ((mockHotelDatabase "Paris" 48.8566 2.3522 "abcd1234" 0).map Hotel.hotel_id)[3]?
      ≠ ((mockHotelDatabase "Paris" 48.8566 2.3522 "abcd1234" 0).map Hotel.hotel_id)[5]? :=
  ⟨rfl, rfl, by decide⟩

/-- C5 (amended): each catalog entry's coordinates are the base coordinates
plus a deterministic offset that is a pure function of the location hash and
a fixed per-entry offset index — stable across calls, no time or randomness
dependence — but the offset indices are `[0,1,2,3,4,3,2,7,3,2]` rather than
the ten distinct catalog indices, and the longitude offset does not depend on
the index at all, so several archetypes share offsets. -/
theorem claim_C5_offset_determinism (location : String) (baseLat baseLng : Rat)
    (qh : String) (lh : Nat) :
    ((mockHotelDatabase location baseLat baseLng qh lh).map Hotel.latitude
       = offsetIndices.map fun i => baseLat + getCoordOffset lh i true)
    ∧ ((mockHotelDatabase location baseLat baseLng qh lh).map Hotel.longitude
       = offsetIndices.map fun i => baseLng + getCoordOffset lh i false)
    ∧ (∀ i j : Nat, getCoordOffset lh i false = getCoordOffset lh j false) := by
  refine ⟨?_, ?_, fun i j => ?_⟩
  · simp only [mockHotelDatabase, offsetIndices, List.map_cons, List.map_nil]
  · simp only [mockHotelDatabase, offsetIndices, List.map_cons, List.map_nil]
  · simp only [getCoordOffset, Bool.false_eq_true, if_false]
    rw [Nat.add_mul_mod_self_right, Nat.add_mul_mod_self_right]

/-! ### Claim C7 (corrected) -/

/-- A hotel priced one cent above a zero budget ceiling. -/
def c7Hotel : Hotel := { hotel_id := "h1", price := some (1 / 100) }

/-- Search parameters with the bound `budget_max = 0.0` present. -/
def c7Params : SearchParams := { budget_max := some 0 }

/-- C7 counterexample: with the bound `budget_max = 0.0` present, a candidate
priced `budget_max + 0.01` is not excluded — Python truthiness makes a zero
bound behave as missing (`if parameters.budget_max:`). -/
theorem claim_C7_counterexample :
    c7Params.budget_max = some 0
    ∧ c7Hotel.price = some (0 + 1 / 100)
    ∧ budgetFilter [c7Hotel] c7Params = [c7Hotel]
    ∧ filterMockHotels [c7Hotel] c7Params = [c7Hotel] := by
  refine ⟨rfl, by norm_num [c7Hotel], ?_, ?_⟩
  · simp [budgetFilter, c7Params, ratTruthy]
  · simp [filterMockHotels, budgetFilter, c7Params, ratTruthy]

/-- With a nonzero max bound and no min bound, the budget filter is exactly
the price-ceiling filter. -/
theorem budgetFilter_max_only (hotels : List Hotel) (p : SearchParams) (m : Rat)
    (hmax : p.budget_max = some m) (hm0 : m ≠ 0) (hmin : p.budget_min = none) :
    budgetFilter hotels p = hotels.filter fun h => decide (h.price.getD 0 ≤ m) := by
  unfold budgetFilter
  rw [hmax, hmin]
  simp [ratTruthy, hm0]

/-- C7 (amended): for every present and *nonzero* maximum budget bound, a
candidate priced exactly at the bound passes the synthetic provider's budget
filter and a candidate priced one cent above it is excluded; a missing bound
(and likewise a zero bound, which Python truthiness treats as missing) is
unbounded on that side. -/
theorem claim_C7_budget_boundary (hotels : List Hotel) (p : SearchParams)
    (h : Hotel) (m : Rat) (hmem : h ∈ hotels) (hmax : p.budget_max = some m)
    (hm0 : m ≠ 0) (hmin : p.budget_min = none) :
    (h.price = some m → h ∈ budgetFilter hotels p)
    ∧ (h.price = some (m + 1 / 100) → h ∉ budgetFilter hotels p)
    ∧ (∀ p2 : SearchParams, p2.budget_max = none → p2.budget_min = none →
        budgetFilter hotels p2 = hotels) := by
  refine ⟨fun hp => ?_, fun hp hmem2 => ?_, fun p2 h2 h3 => ?_⟩
  · rw [budgetFilter_max_only hotels p m hmax hm0 hmin]
    exact List.mem_filter.mpr ⟨hmem, by simp [hp]⟩
  · rw [budgetFilter_max_only hotels p m hmax hm0 hmin] at hmem2
    have hle := (List.mem_filter.mp hmem2).2
    simp only [hp, Option.getD_some, decide_eq_true_eq] at hle
    nlinarith [hle]
  · unfold budgetFilter
    rw [h2, h3]
    rfl

/-- C7 witness: with `budget_max = 150`, a hotel priced 150.0 is kept and a
hotel priced 150.01 is dropped by the budget filter. -/
theorem claim_C7_budget_boundary_witness :
    ({ budget_max := some 150 : SearchParams }).budget_max = some 150
    ∧ ({ hotel_id := "in", price := some 150 : Hotel }
        ∈ budgetFilter [{ hotel_id := "in", price := some 150 },
                        { hotel_id := "out", price := some (150 + 1 / 100) }]
            { budget_max := some 150 })
    ∧ ({ hotel_id := "out", price := some (150 + 1 / 100) : Hotel }
        ∉ budgetFilter [{ hotel_id := "in", price := some 150 },
                        { hotel_id := "out", price := some (150 + 1 / 100) }]
            { budget_max := some 150 }) :=
  ⟨rfl,
   (claim_C7_budget_boundary
      [{ hotel_id := "in", price := some 150 },
       { hotel_id := "out", price := some (150 + 1 / 100) }]
      { budget_max := some 150 }
      { hotel_id := "in", price := some 150 } 150
      (List.mem_cons_self _ _) rfl (by norm_num) rfl).1 rfl,
   (claim_C7_budget_boundary
      [{ hotel_id := "in", price := some 150 },
       { hotel_id := "out", price := some (150 + 1 / 100) }]
      { budget_max := some 150 }
      { hotel_id := "out", price := some (150 + 1 / 100) } 150
      (List.mem_cons_of_mem _ (List.mem_cons_self _ _)) rfl (by norm_num) rfl).2.1 rfl⟩

/-! ### Claim C1 -/

/-- C1: hydration precedence.  On a non-empty search result, the final
`matched_hotels` list is exactly the ranked identifiers resolved in order,
each preferring the fresh candidate entry over the store left behind by the
persistence step; moreover a fresh entry wins over any stored record for the
same identifier (whatever that record holds), and an identifier absent from
both sources contributes nothing (silent omission). -/
theorem claim_C1_hydration_precedence (userDemand : String)
    (searchParams : SearchParams) (hotels : List Hotel)
    (ranker : String → List Hotel → List String) (db : HotelStore)
    (persistOk : Bool) (hne : hotels ≠ []) :
    ((recommendHotels userDemand searchParams hotels ranker db persistOk).1.matched_hotels
      = (ranker userDemand hotels).filterMap fun i =>
          ((hotelsById hotels) i).or
            ((recommendHotels userDemand searchParams hotels ranker db persistOk).2 i))
    ∧ (∀ (i : String) (h h2 : Hotel), hotelsById hotels i = some h → db i = some h2 →
        hydrateIds [i] (hotelsById hotels) db = [h])
    ∧ (∀ i : String, hotelsById hotels i = none → db i = none →
        hydrateIds [i] (hotelsById hotels) db = []) := by
  have hni : hotels.isEmpty = false := by
    cases hotels with
    | nil => exact absurd rfl hne
    | cons a l => rfl
  refine ⟨?_, fun i h h2 hf hd => ?_, fun i hf hd => ?_⟩
  · simp only [recommendHotels, hni, Bool.false_eq_true, if_false]
    exact hydrateIds_eq _ _ _
  · simp [hydrateIds, hf]
  · simp [hydrateIds, hf, hd]

/-- Fresh candidate for the C1 witness. -/
def c1FreshHotel : Hotel := { hotel_id := "a", name := "fresh payload" }

/-- Stale persisted record sharing `hotel_id` "a" with a different payload. -/
def c1StaleHotel : Hotel := { hotel_id := "a", name := "stale payload" }

/-- A record present only in the store. -/
def c1StoredHotel : Hotel := { hotel_id := "z", name := "stored only" }

/-- Store for the C1 witness. -/
def c1Db : HotelStore := fun k =>
  if k = "a" then some c1StaleHotel
  else if k = "z" then some c1StoredHotel
  else none

/-- Ranker for the C1 witness: one fresh id, one store-only id, one unknown id. -/
def c1Ranker : String → List Hotel → List String := fun _ _ => ["a", "z", "q"]

/-- C1 witness: on a concrete request the fresh payload beats the stale
stored record for "a", the store resolves "z", and "q" is silently omitted. -/
theorem claim_C1_hydration_precedence_witness :
    ([c1FreshHotel] ≠ ([] : List Hotel))
    ∧ ((recommendHotels "demand" {} [c1FreshHotel] c1Ranker c1Db false).1.matched_hotels
        = (c1Ranker "demand" [c1FreshHotel]).filterMap fun i =>
            ((hotelsById [c1FreshHotel]) i).or
              ((recommendHotels "demand" {} [c1FreshHotel] c1Ranker c1Db false).2 i))
    ∧ (recommendHotels "demand" {} [c1FreshHotel] c1Ranker c1Db false).1.matched_hotels
        = [c1FreshHotel, c1StoredHotel] :=
  ⟨by decide,
   (claim_C1_hydration_precedence "demand" {} [c1FreshHotel] c1Ranker c1Db false
     (by decide)).1,
   by decide⟩

/-! ### Claim C3 -/

/-- The scored-candidate list is the non-empty-identifier candidates, each
paired with its fallback score. -/
theorem scoredCandidates_eq (d : String) (hs : List Hotel) :
    scoredCandidates d hs
      = (hs.filter fun h => !decide (h.hotel_id = "")).map fun h =>
          (fallbackFilterScore (detectFilterBudgetMax (strLower d).data)
            (detectedPreferences (strLower d)) h, h.hotel_id) := by
  simp only [scoredCandidates]
  exact filterMap_guard (fun h => h.hotel_id = "") _ hs

/-- C3: for every demand and every input candidate list, the fallback
relevance ranking returns exactly the identifiers of the candidates with a
non-empty `hotel_id` (a permutation of them — never fewer), ordered by
descending score; and the sort is stable: any two scored entries appearing
in input order with equal scores keep that order in the sorted list. -/
theorem claim_C3_fallback_ranking_complete (userDemand : String)
    (hotels : List Hotel) :
    (fallbackFilterHotels userDemand hotels).Perm
        ((hotels.filter fun h => !decide (h.hotel_id = "")).map Hotel.hotel_id)
    ∧ (fallbackFilterHotels userDemand hotels).length
        = (hotels.filter fun h => !decide (h.hotel_id = "")).length
    ∧ ((scoredCandidates userDemand hotels).mergeSort scoreLE).Pairwise
        (fun a b => b.1 ≤ a.1)
    ∧ (∀ p q : Rat × String,
        List.Sublist [p, q] (scoredCandidates userDemand hotels) → p.1 = q.1 →
          List.Sublist [p, q] ((scoredCandidates userDemand hotels).mergeSort scoreLE)) := by
  have h1 := (List.mergeSort_perm (scoredCandidates userDemand hotels) scoreLE).map
    (fun x : Rat × String => x.2)
  have h2 : (scoredCandidates userDemand hotels).map (fun x => x.2)
      = (hotels.filter fun h => !decide (h.hotel_id = "")).map Hotel.hotel_id := by
    rw [scoredCandidates_eq]
    simp [List.map_map]
  have hperm : (fallbackFilterHotels userDemand hotels).Perm
      ((hotels.filter fun h => !decide (h.hotel_id = "")).map Hotel.hotel_id) :=
    h2 ▸ h1
  refine ⟨hperm, hperm.length_eq.trans (List.length_map _ _), ?_, fun p q hsub heq => ?_⟩
  · exact (List.sorted_mergeSort scoreLE_trans scoreLE_total
      (scoredCandidates userDemand hotels)).imp
      (fun hab => by simpa [scoreLE] using hab)
  · have hpq : scoreLE p q := by simp [scoreLE, heq]
    have hpw : [p, q].Pairwise (fun a b => scoreLE a b) := by
      refine List.Pairwise.cons ?_ (List.pairwise_singleton _ _)
      intro b hb
      rw [List.mem_singleton] at hb
      subst hb
      exact hpq
    exact List.sublist_mergeSort scoreLE_trans scoreLE_total hpw hsub

/-- A candidate with identifier "x" and default fields. -/
def c3HotelX : Hotel := { hotel_id := "x" }

/-- A candidate with identifier "y" and default fields. -/
def c3HotelY : Hotel := { hotel_id := "y" }

/-- The fallback score a hotel receives for the empty demand. -/
def c3ScoreOf (h : Hotel) : Rat :=
  fallbackFilterScore (detectFilterBudgetMax (strLower "").data)
    (detectedPreferences (strLower "")) h

/-- C3 witness: on a concrete demand and candidate list the output is a
permutation of both identifiers of full length and the sorted list is
descending; instantiating the stability conjunct at the concrete equal-score
pair (discharging its sublist and equal-score hypotheses) keeps the tie in
input order. -/
theorem claim_C3_fallback_ranking_complete_witness :
    List.Sublist [(c3ScoreOf c3HotelX, "x"), (c3ScoreOf c3HotelY, "y")]
        (scoredCandidates "" [c3HotelX, c3HotelY])
    ∧ (c3ScoreOf c3HotelX, "x").1 = (c3ScoreOf c3HotelY, "y").1
    ∧ (fallbackFilterHotels "" [c3HotelX, c3HotelY]).Perm
        (([c3HotelX, c3HotelY].filter fun h => !decide (h.hotel_id = "")).map Hotel.hotel_id)
    ∧ (fallbackFilterHotels "" [c3HotelX, c3HotelY]).length
        = ([c3HotelX, c3HotelY].filter fun h => !decide (h.hotel_id = "")).length
    ∧ ((scoredCandidates "" [c3HotelX, c3HotelY]).mergeSort scoreLE).Pairwise
        (fun a b => b.1 ≤ a.1)
    ∧ List.Sublist [(c3ScoreOf c3HotelX, "x"), (c3ScoreOf c3HotelY, "y")]
        ((scoredCandidates "" [c3HotelX, c3HotelY]).mergeSort scoreLE) :=
  ⟨List.Sublist.refl _, rfl,
   (claim_C3_fallback_ranking_complete "" [c3HotelX, c3HotelY]).1,
   (claim_C3_fallback_ranking_complete "" [c3HotelX, c3HotelY]).2.1,
   (claim_C3_fallback_ranking_complete "" [c3HotelX, c3HotelY]).2.2.1,
   (claim_C3_fallback_ranking_complete "" [c3HotelX, c3HotelY]).2.2.2
     (c3ScoreOf c3HotelX, "x") (c3ScoreOf c3HotelY, "y")
     (List.Sublist.refl _) rfl⟩

/-! ### Claim C6 -/

/-- Every entry of the sorted scored list carries its hotel's preference
score in the first component. -/
theorem mem_sorted_score (pl : List String) (f : List Hotel) :
    ∀ x ∈ (f.map fun h => (prefScoreMock pl h, h)).mergeSort scoreLE,
      x.1 = prefScoreMock pl x.2 := by
  intro x hx
  rw [List.mem_mergeSort] at hx
  obtain ⟨h, _, hhx⟩ := List.mem_map.mp hx
  cases hhx
  rfl

/-- The preference-bias branch yields hotels in descending preference-score
order (the stable sort keeps catalog order on ties). -/
theorem prefRankedHotels_pairwise (pl : List String) (f : List Hotel) :
    (prefRankedHotels pl f).Pairwise
      (fun a b => prefScoreMock pl b ≤ prefScoreMock pl a) := by
  have hsort : ((f.map fun h => (prefScoreMock pl h, h)).mergeSort scoreLE).Pairwise
      (fun a b => b.1 ≤ a.1) :=
    (List.sorted_mergeSort scoreLE_trans scoreLE_total _).imp
      (fun hab => by simpa [scoreLE] using hab)
  have hsc : ((f.map fun h => (prefScoreMock pl h, h)).mergeSort scoreLE).Pairwise
      (fun a b => prefScoreMock pl b.2 ≤ prefScoreMock pl a.2) := by
    refine hsort.imp_of_mem (fun ha hb hab => ?_)
    rwa [mem_sorted_score pl f _ ha, mem_sorted_score pl f _ hb] at hab
  simp only [prefRankedHotels]
  by_cases hp : (((f.map fun h => (prefScoreMock pl h, h)).mergeSort scoreLE).filter
      (fun x => decide (0 < x.1))).map (fun x => x.2) |>.isEmpty
  · rw [if_pos hp]
    exact List.pairwise_map.mpr hsc
  · rw [if_neg hp]
    exact List.pairwise_map.mpr (hsc.filter _)

/-- When every surviving candidate scores zero, the preference-bias branch
returns all of them in catalog order rather than an empty list. -/
theorem prefRankedHotels_all_zero (pl : List String) (f : List Hotel)
    (hz : ∀ h ∈ f, prefScoreMock pl h = 0) : prefRankedHotels pl f = f := by
  have hps : (f.map fun h => (prefScoreMock pl h, h)).Pairwise
      (fun a b => scoreLE a b) := by
    refine List.pairwise_of_forall_mem_list (fun a ha b hb => ?_)
    obtain ⟨x, hx, hxa⟩ := List.mem_map.mp ha
    obtain ⟨y, hy, hyb⟩ := List.mem_map.mp hb
    cases hxa
    cases hyb
    simp [scoreLE, hz x hx, hz y hy]
  have hsorted : (f.map fun h => (prefScoreMock pl h, h)).mergeSort scoreLE
      = f.map fun h => (prefScoreMock pl h, h) := List.mergeSort_of_sorted hps
  have hfil : ((f.map fun h => (prefScoreMock pl h, h)).mergeSort scoreLE).filter
      (fun x => decide (0 < x.1)) = [] := by
    rw [hsorted, List.filter_eq_nil_iff]
    intro a ha
    obtain ⟨x, hx, hxa⟩ := List.mem_map.mp ha
    cases hxa
    simp [hz x hx]
  simp only [prefRankedHotels]
  rw [hfil]
  simp only [List.map_nil, List.isEmpty_nil, if_true, hsorted, List.map_map]
  exact List.map_id' f

/-- The preference-bias branch never maps a non-empty survivor list to the
empty list. -/
theorem prefRankedHotels_ne_nil (pl : List String) (f : List Hotel)
    (hf : f ≠ []) : prefRankedHotels pl f ≠ [] := by
  simp only [prefRankedHotels]
  by_cases hp : (((f.map fun h => (prefScoreMock pl h, h)).mergeSort scoreLE).filter
      (fun x => decide (0 < x.1))).map (fun x => x.2) |>.isEmpty
  · rw [if_pos hp]
    intro hcon
    have : f.length = 0 := by
      have := congrArg List.length hcon
      simpa using this
    exact hf (List.length_eq_zero.mp this)
  · rw [if_neg hp]
    intro hcon
    rw [hcon] at hp
    simp at hp

/-- C6: with preferences present, the synthetic filter scores every candidate
surviving the budget filter with fixed +10 per-tag bonuses and returns the
preference-ranked list capped at 12: the output is sorted by score
descending (stable on ties), equals all survivors in catalog order (capped)
when every survivor scored zero, is never emptied by scoring alone, has at
most 12 entries, and is not truncated when at most 12 exist. -/
theorem claim_C6_preference_bias (hotels : List Hotel) (p : SearchParams)
    (hpref : p.preferences ≠ []) :
    (filterMockHotels hotels p
        = (prefRankedHotels (p.preferences.map strLower) (budgetFilter hotels p)).take 12)
    ∧ (filterMockHotels hotels p).Pairwise
        (fun a b => prefScoreMock (p.preferences.map strLower) b
          ≤ prefScoreMock (p.preferences.map strLower) a)
    ∧ ((∀ h ∈ budgetFilter hotels p, prefScoreMock (p.preferences.map strLower) h = 0) →
        filterMockHotels hotels p = (budgetFilter hotels p).take 12)
    ∧ (budgetFilter hotels p ≠ [] → filterMockHotels hotels p ≠ [])
    ∧ (filterMockHotels hotels p).length ≤ 12
    ∧ ((prefRankedHotels (p.preferences.map strLower) (budgetFilter hotels p)).length ≤ 12 →
        filterMockHotels hotels p
          = prefRankedHotels (p.preferences.map strLower) (budgetFilter hotels p)) := by
  have hne : p.preferences.isEmpty = false := by
    cases hp : p.preferences with
    | nil => exact absurd hp hpref
    | cons a l => rfl
  have hfm : filterMockHotels hotels p
      = (prefRankedHotels (p.preferences.map strLower) (budgetFilter hotels p)).take 12 := by
    simp only [filterMockHotels, hne, Bool.false_eq_true, if_false]
    by_cases h12 : 12 < (prefRankedHotels (p.preferences.map strLower)
        (budgetFilter hotels p)).length
    · rw [if_pos h12]
    · rw [if_neg h12, List.take_of_length_le (Nat.le_of_not_lt h12)]
  refine ⟨hfm, ?_, fun hz => ?_, fun hbf => ?_, ?_, fun hlen => ?_⟩
  · rw [hfm]
    exact (prefRankedHotels_pairwise _ _).sublist (List.take_sublist _ _)
  · rw [hfm, prefRankedHotels_all_zero _ _ hz]
  · rw [hfm]
    intro hcon
    rcases List.take_eq_nil_iff.mp hcon with h0 | hnil
    · omega
    · exact prefRankedHotels_ne_nil _ _ hbf hnil
  · rw [hfm]
    simp only [List.length_take]
    exact Nat.min_le_left _ _
  · rw [hfm, List.take_of_length_le hlen]

/-- Spa-amenity hotel for the C6 witness. -/
def c6Spa : Hotel := { hotel_id := "s", amenities := ["Spa"] }

/-- Plain hotel for the C6 witness. -/
def c6Plain : Hotel := { hotel_id := "n" }

/-- Search parameters with one preference for the C6 witness. -/
def c6Params : SearchParams := { preferences := ["spa"] }

/-- C6 witness: the preference-bias properties instantiated on a concrete
two-candidate catalog with the "spa" preference. -/
theorem claim_C6_preference_bias_witness :
    c6Params.preferences ≠ []
    ∧ ((filterMockHotels [c6Spa, c6Plain] c6Params
          = (prefRankedHotels (c6Params.preferences.map strLower)
              (budgetFilter [c6Spa, c6Plain] c6Params)).take 12)
      ∧ (filterMockHotels [c6Spa, c6Plain] c6Params).Pairwise
          (fun a b => prefScoreMock (c6Params.preferences.map strLower) b
            ≤ prefScoreMock (c6Params.preferences.map strLower) a)
      ∧ ((∀ h ∈ budgetFilter [c6Spa, c6Plain] c6Params,
            prefScoreMock (c6Params.preferences.map strLower) h = 0) →
          filterMockHotels [c6Spa, c6Plain] c6Params
            = (budgetFilter [c6Spa, c6Plain] c6Params).take 12)
      ∧ (budgetFilter [c6Spa, c6Plain] c6Params ≠ [] →
          filterMockHotels [c6Spa, c6Plain] c6Params ≠ [])
      ∧ (filterMockHotels [c6Spa, c6Plain] c6Params).length ≤ 12
      ∧ ((prefRankedHotels (c6Params.preferences.map strLower)
            (budgetFilter [c6Spa, c6Plain] c6Params)).length ≤ 12 →
          filterMockHotels [c6Spa, c6Plain] c6Params
            = prefRankedHotels (c6Params.preferences.map strLower)
                (budgetFilter [c6Spa, c6Plain] c6Params))) :=
  ⟨by decide, claim_C6_preference_bias [c6Spa, c6Plain] c6Params (by decide)⟩

/-! ### Claim C8 (corrected) -/

/-- The budget filter only keeps input candidates. -/
theorem budgetFilter_subset (hotels : List Hotel) (p : SearchParams) :
    ∀ x ∈ budgetFilter hotels p, x ∈ hotels := by
  intro x hx
  unfold budgetFilter at hx
  by_cases h1 : ratTruthy p.budget_max <;> by_cases h2 : ratTruthy p.budget_min <;>
    simp only [h1, h2, Bool.false_eq_true, if_true, if_false] at hx <;>
    first
    | exact hx
    | exact List.mem_of_mem_filter hx
    | exact List.mem_of_mem_filter (List.mem_of_mem_filter hx)

/-- The preference-bias branch only keeps input candidates. -/
theorem mem_prefRankedHotels (pl : List String) (f : List Hotel) :
    ∀ x ∈ prefRankedHotels pl f, x ∈ f := by
  intro x hx
  simp only [prefRankedHotels] at hx
  by_cases hp : (((f.map fun h => (prefScoreMock pl h, h)).mergeSort scoreLE).filter
      (fun x => decide (0 < x.1))).map (fun x => x.2) |>.isEmpty
  · rw [if_pos hp] at hx
    obtain ⟨y, hy, rfl⟩ := List.mem_map.mp hx
    rw [List.mem_mergeSort] at hy
    obtain ⟨h, hh, hhy⟩ := List.mem_map.mp hy
    cases hhy
    exact hh
  · rw [if_neg hp] at hx
    obtain ⟨y, hy, rfl⟩ := List.mem_map.mp hx
    have hy2 := List.mem_of_mem_filter hy
    rw [List.mem_mergeSort] at hy2
    obtain ⟨h, hh, hhy⟩ := List.mem_map.mp hy2
    cases hhy
    exact hh

/-- The synthetic filter only returns candidates from its input catalog. -/
theorem mem_filterMockHotels (hotels : List Hotel) (p : SearchParams) :
    ∀ x ∈ filterMockHotels hotels p, x ∈ hotels := by
  intro x hx
  simp only [filterMockHotels] at hx
  by_cases h12 : 12 < (if p.preferences.isEmpty then budgetFilter hotels p
      else prefRankedHotels (p.preferences.map strLower) (budgetFilter hotels p)).length <;>
    simp only [h12, if_true, if_false] at hx
  · have hx2 := (List.take_sublist _ _).subset hx
    by_cases hpe : p.preferences.isEmpty <;> simp only [hpe, if_true, if_false,
        Bool.false_eq_true] at hx2
    · exact budgetFilter_subset hotels p _ hx2
    · exact budgetFilter_subset hotels p _ (mem_prefRankedHotels _ _ _ hx2)
  · by_cases hpe : p.preferences.isEmpty <;> simp only [hpe, if_true, if_false,
        Bool.false_eq_true] at hx
    · exact budgetFilter_subset hotels p _ hx
    · exact budgetFilter_subset hotels p _ (mem_prefRankedHotels _ _ _ hx)

/-- The 8-hex-digit fingerprint value is a 32-bit number. -/
theorem md5Hex8Nat_lt (s : String) : md5Hex8Nat s < 2 ^ 32 := by
  simp only [md5Hex8Nat]
  omega

instance : Infinite QueryKey :=
  Infinite.of_injective
    (fun n : Nat => { location := String.mk (List.replicate n 'a'),
                      budget_min := none, budget_max := none, preferences := [] })
    (fun a b hab => by
      have hloc := congrArg QueryKey.location hab
      have hdata := congrArg String.data hloc
      have := congrArg List.length hdata
      simpa using this)

/-- C8 counterexample: fingerprint collisions exist.  The fingerprint is an
8-hex-digit (32-bit) truncation of MD5, and a function from the infinitely
many query tuples into finitely many values cannot be injective, so two
distinct tuples share a fingerprint — "different queries never collide" is
false. -/
theorem claim_C8_counterexample :
    ∃ t1 t2 : QueryKey, t1 ≠ t2 ∧ queryKeyFingerprint t1 = queryKeyFingerprint t2 := by
  obtain ⟨t1, t2, hne, heq⟩ := Finite.exists_ne_map_eq_of_infinite
    (fun t : QueryKey => (⟨queryKeyFingerprintNat t, md5Hex8Nat_lt _⟩ : Fin (2 ^ 32)))
  refine ⟨t1, t2, hne, ?_⟩
  have hval : queryKeyFingerprintNat t1 = queryKeyFingerprintNat t2 := congrArg Fin.val heq
  exact congrArg natToHex8 hval

/-- C8 (amended): the fingerprint is a deterministic pure function of the
`(location, budget_min, budget_max, preferences)` tuple — identical tuples
reuse the same identifier stem — and every identifier the synthetic provider
returns carries that tuple's fingerprint as its stem.  Distinct tuples,
however, are not guaranteed distinct fingerprints (see the counterexample). -/
theorem claim_C8_fingerprint_id_stem (p : SearchParams) (lh : Nat) (h : Hotel)
    (hmem : h ∈ getMockHotels p lh) :
    ∃ suffix : String,
      h.hotel_id = queryKeyFingerprint
        { location := defaultLocation p, budget_min := p.budget_min,
          budget_max := p.budget_max, preferences := p.preferences } ++ suffix := by
  have hdb : h ∈ mockHotelDatabase (defaultLocation p)
      (getLocationCoordinates (strLower (defaultLocation p))).1
      (getLocationCoordinates (strLower (defaultLocation p))).2
      (md5Hex8 (queryString (defaultLocation p) p.budget_min p.budget_max p.preferences))
      lh := by
    refine mem_filterMockHotels _ p h ?_
    simpa only [getMockHotels] using hmem
  simp only [mockHotelDatabase, List.mem_cons, List.not_mem_nil, or_false] at hdb
  rcases hdb with rfl | rfl | rfl | rfl | rfl | rfl | rfl | rfl | rfl | rfl
  · exact ⟨"_luxury_1", rfl⟩
  · exact ⟨"_resort_1", rfl⟩
  · exact ⟨"_boutique_1", rfl⟩
  · exact ⟨"_business_1", rfl⟩
  · exact ⟨"_family_1", rfl⟩
  · exact ⟨"_mid_1", rfl⟩
  · exact ⟨"_spa_1", rfl⟩
  · exact ⟨"_budget_1", rfl⟩
  · exact ⟨"_historic_1", rfl⟩
  · exact ⟨"_eco_1", rfl⟩

/-- Empty search parameters for the C8 witness. -/
def c8Params : SearchParams := {}

/-- The catalog generated for the empty parameters (location defaults to
Paris) at location hash 0. -/
def c8Catalog : List Hotel :=
  mockHotelDatabase (defaultLocation c8Params)
    (getLocationCoordinates (strLower (defaultLocation c8Params))).1
    (getLocationCoordinates (strLower (defaultLocation c8Params))).2
    (md5Hex8 (queryString (defaultLocation c8Params) c8Params.budget_min
      c8Params.budget_max c8Params.preferences)) 0

/-- The first candidate of that catalog. -/
def c8Hotel : Hotel := c8Catalog.getD 0 { hotel_id := "" }

/-- C8 witness: the first candidate returned for the empty query carries the
query fingerprint as its identifier stem. -/
theorem claim_C8_fingerprint_id_stem_witness :
    c8Hotel ∈ getMockHotels c8Params 0
    ∧ ∃ suffix : String,
        c8Hotel.hotel_id = queryKeyFingerprint
          { location := defaultLocation c8Params, budget_min := c8Params.budget_min,
            budget_max := c8Params.budget_max, preferences := c8Params.preferences }
          ++ suffix :=
  ⟨List.mem_cons_self _ _,
   claim_C8_fingerprint_id_stem c8Params 0 c8Hotel (List.mem_cons_self _ _)⟩

/-! ### Claim C9 -/

/-- C9: the rule-based extraction maps "hotels under 150" to
`budget_max = 150.0` and never infers `budget_min`; patterns are tried in
priority order ("under N" beats the later "up to N" pattern even when the
latter occurs earlier in the demand); and "cheap stay" takes the budget-style
path of the ranking fallback: a non-nil low ceiling of 100.0 plus the
"budget" preference tag. -/
theorem claim_C9_fallback_budget_patterns :
    (fallbackExtractParameters "hotels under 150").budget_max = some 150
    ∧ (∀ d : String, (fallbackExtractParameters d).budget_min = none)
    ∧ (fallbackExtractParameters "up to 300 and also under 100").budget_max = some 100
    ∧ detectFilterBudgetMax (strLower "cheap stay").data = some 100
    ∧ "budget" ∈ detectedPreferences (strLower "cheap stay") := by
  have h1 : firstPattern extractBudgetPatterns (strLower "hotels under 150").data
      = some (some 150) := by decide
  have h2 : firstPattern extractBudgetPatterns (strLower "up to 300 and also under 100").data
      = some (some 100) := by decide
  have h3 : firstPattern filterBudgetPatterns (strLower "cheap stay").data
      = some none := by decide
  refine ⟨?_, fun d => rfl, ?_, ?_, by decide⟩
  · simp only [fallbackExtractParameters, extractBudgetMax, h1]
    norm_num
  · simp only [fallbackExtractParameters, extractBudgetMax, h2]
    norm_num
  · simp only [detectFilterBudgetMax, h3]
    norm_num

end TravelPlanner
